import Mathlib

/-
Verification of the `xdo` Python binding layer (files `xdo/__init__.py` and
`xdo/_xdo.py`): a thin ctypes wrapper around the native libxdo automation
library.  The native library is modelled as an oracle assigning an integer
result code to each declared entry point; the wrapper methods are embedded as
functions producing the list of native calls performed (in order, with their
arguments) together with the Python-level outcome (normal return or raised
exception).
-/

deriving instance DecidableEq for Except

namespace PythonLibxdo

/-- The three Python exception kinds raised by the wrapper:
`XdoException` (from `_errcheck`), `TypeError` (bad delay argument),
`SystemError` (failed construction). -/
inductive PyError where
  | xdoException (msg : String)
  | typeError (msg : String)
  | systemError (msg : String)
deriving DecidableEq

/-- The errcheck-wrapped native entry points declared in `_xdo.py`
(each has `restype = c_int` and `errcheck = _errcheck`). -/
inductive NativeFn where
  | xdo_enter_text_window
  | xdo_send_keysequence_window
  | xdo_focus_window
  | xdo_get_focused_window
  | xdo_wait_for_window_focus
  | xdo_get_active_modifiers
  | xdo_clear_active_modifiers
  | xdo_set_active_modifiers
deriving DecidableEq

/-- The Python-visible name (`func.__name__`) of each native entry point. -/
def NativeFn.pyName : NativeFn → String
  | .xdo_enter_text_window => "xdo_enter_text_window"
  | .xdo_send_keysequence_window => "xdo_send_keysequence_window"
  | .xdo_focus_window => "xdo_focus_window"
  | .xdo_get_focused_window => "xdo_get_focused_window"
  | .xdo_wait_for_window_focus => "xdo_wait_for_window_focus"
  | .xdo_get_active_modifiers => "xdo_get_active_modifiers"
  | .xdo_clear_active_modifiers => "xdo_clear_active_modifiers"
  | .xdo_set_active_modifiers => "xdo_set_active_modifiers"

/-- A trace entry: one call into native code (libxdo or libc `free`),
recorded with the arguments the wrapper passes. -/
inductive Call where
  | get_active_modifiers
  | clear_active_modifiers (window : Nat)
  | enter_text (window : Nat) (bytes : List Nat) (delay : Int)
  | send_keyseq (window : Nat) (bytes : List Nat) (delay : Int)
  | set_active_modifiers (window : Nat)
  | free
  | focus (window : Nat)
  | get_focused
  | wait_focus (window : Nat) (want : Nat)
deriving DecidableEq

/-- The bare operation name of a trace entry (forgetting arguments). -/
inductive CallName where
  | get_mods
  | clear_mods
  | enter_text
  | send_keyseq
  | set_mods
  | free
  | focus
  | get_focused
  | wait_focus
deriving DecidableEq

def Call.name : Call → CallName
  | .get_active_modifiers => .get_mods
  | .clear_active_modifiers _ => .clear_mods
  | .enter_text _ _ _ => .enter_text
  | .send_keyseq _ _ _ => .send_keyseq
  | .set_active_modifiers _ => .set_mods
  | .free => .free
  | .focus _ => .focus
  | .get_focused => .get_focused
  | .wait_focus _ _ => .wait_focus

/-- The payload bytes a trace entry passes to the native text-entry or
keysequence call, when it is one of those calls. -/
def Call.payloadBytes : Call → Option (List Nat)
  | .enter_text _ b _ => some b
  | .send_keyseq _ b _ => some b
  | _ => none

/-- The native library's behavior: the integer result code each
errcheck-wrapped entry point returns when called. -/
def Oracle : Type := NativeFn → Int

/-- `_xdo._errcheck`: raises `XdoException` with the function name and the
numeric result code when the result is non-zero, returns `None` otherwise. -/
def errcheck (funcName : String) (result : Int) : Except PyError Unit :=
  if result ≠ 0 then
    .error (.xdoException
      ("Function " ++ funcName ++ " returned error code " ++ toString result))
  else
    .ok ()

/-- One call to an errcheck-wrapped native function: the native code runs
(yielding the oracle's result code) and `_errcheck` screens the result. -/
def checkedCall (oracle : Oracle) (f : NativeFn) : Except PyError Unit :=
  errcheck f.pyName (oracle f)

/-- Python `datetime.timedelta`, with its normalized fields
(`days`, `seconds`, `microseconds`). -/
structure Timedelta where
  days : Int
  seconds : Int
  microseconds : Int
deriving DecidableEq

/-- Floor of log2 by fuelled halving (fuel n suffices for input n). -/
def log2Fuel : Nat → Nat → Nat
  | 0, _ => 0
  | fuel + 1, n => if n < 2 then 0 else log2Fuel fuel (n / 2) + 1

/-- Floor of log2 of a positive natural (0 for 0). -/
def natLog2 (n : Nat) : Nat :=
  log2Fuel n n

/-- Round the nonnegative rational a / b to the nearest integer, ties to
even — the IEEE-754 default rounding, applied to a scaled significand. -/
def rne (a b : Nat) : Nat :=
  let q := a / b
  let r := a % b
  if 2 * r < b then q
  else if b < 2 * r then q + 1
  else if q % 2 = 0 then q else q + 1

/-- Does the positive rational a / b reach 2 ^ d? -/
def gePow2 (a b : Nat) (d : Int) : Bool :=
  if 0 ≤ d then decide (b * 2 ^ d.toNat ≤ a) else decide (b ≤ a * 2 ^ (-d).toNat)

/-- Binary64 (double-precision) rounding of the positive rational a / b:
returns (mantissa, scale) with value mantissa * 2 ^ scale and
2 ^ 52 ≤ mantissa < 2 ^ 53.  Normal range only, which covers every
magnitude the wrapper's delay arithmetic produces short of overflow. -/
def roundPos (a b : Nat) : Nat × Int :=
  let d : Int := (natLog2 a : Int) - (natLog2 b : Int)
  let e : Int := if gePow2 a b d then d else d - 1
  let m : Nat :=
    if 0 ≤ 52 - e then rne (a * 2 ^ (52 - e).toNat) b
    else rne a (b * 2 ^ (e - 52).toNat)
  if m = 2 ^ 53 then (2 ^ 52, e - 51) else (m, e - 52)

/-- A finite IEEE binary64 value — the representation CPython floats carry:
sign, 53-bit mantissa and binary scale; the value is
± mantissa * 2 ^ scale, and zero has mantissa 0. -/
structure Float64 where
  sgnNeg : Bool
  mant : Nat
  scale : Int
deriving DecidableEq

/-- Binary64 true division of an integer by a positive natural, as CPython
evaluates `x / y` on ints: the exact rational correctly rounded to the
nearest double, ties to even. -/
def floatDivInt (a : Int) (b : Nat) : Float64 :=
  if a = 0 then ⟨false, 0, 0⟩
  else
    let p := roundPos a.natAbs b
    ⟨decide (a < 0), p.1, p.2⟩

/-- Binary64 multiplication of a float by an exact nonnegative integer
(1000000 is exactly representable, so only the product is rounded). -/
def Float64.mulNat (x : Float64) (k : Nat) : Float64 :=
  if x.mant * k = 0 then ⟨x.sgnNeg, 0, 0⟩
  else
    let p :=
      if 0 ≤ x.scale then roundPos (x.mant * k * 2 ^ x.scale.toNat) 1
      else roundPos (x.mant * k) (2 ^ (-x.scale).toNat)
    ⟨x.sgnNeg, p.1, p.2⟩

/-- Python `int()` on a finite float: truncation toward zero. -/
def Float64.toIntTrunc (x : Float64) : Int :=
  let v : Nat :=
    if 0 ≤ x.scale then x.mant * 2 ^ x.scale.toNat
    else x.mant / 2 ^ (-x.scale).toNat
  if x.sgnNeg then -(v : Int) else (v : Int)

/-- `timedelta.total_seconds()`: CPython returns the float
`((days * 86400 + seconds) * 10**6 + microseconds) / 10**6`, a single
binary64 division of exact integers. -/
def Timedelta.total_seconds (t : Timedelta) : Float64 :=
  floatDivInt ((t.days * 86400 + t.seconds) * 1000000 + t.microseconds) 1000000

/-- The exact number of microseconds a `Timedelta` spans. -/
def Timedelta.totalMicroseconds (t : Timedelta) : Int :=
  (t.days * 86400 + t.seconds) * 1000000 + t.microseconds

/-- `timedelta(microseconds=us)`: normalization by floor-divmod, first into
seconds and leftover microseconds, then into days and leftover seconds. -/
def Timedelta.ofMicroseconds (us : Int) : Timedelta :=
  let s := us.fdiv 1000000
  let micro := us.fmod 1000000
  ⟨s.fdiv 86400, s.fmod 86400, micro⟩

/-- The dynamic type of the `delay` argument: a `timedelta`, an `int`, or a
value of any other type. -/
inductive DelayArg where
  | td (t : Timedelta)
  | int (n : Int)
  | other
deriving DecidableEq

/-- The delay dispatch at the top of `enter_text_window` and
`send_keysequence_window`: `int(delay.total_seconds() * 1000000)` — a
binary64 multiplication of the `total_seconds()` float by one million,
truncated toward zero — for a `timedelta`, pass-through for an `int`,
`TypeError` otherwise. -/
def delayToInt : DelayArg → Except PyError Int
  | .td t => .ok ((t.total_seconds.mulNat 1000000).toIntTrunc)
  | .int n => .ok n
  | .other =>
      .error (.typeError "delay parameter should be either a timedelta or an int")

/-- The dynamic type of the payload argument: `str` or `bytes`. -/
inductive Payload where
  | str (s : String)
  | bytes (b : List Nat)
deriving DecidableEq

/-- Standard UTF-8 encoding of one Unicode scalar value (what Python's
`str.encode` emits per character). -/
def utf8EncodeChar (c : Char) : List Nat :=
  let n := c.toNat
  if n < 128 then [n]
  else if n < 2048 then [192 + n / 64, 128 + n % 64]
  else if n < 65536 then [224 + n / 4096, 128 + n / 64 % 64, 128 + n % 64]
  else [240 + n / 262144, 128 + n / 4096 % 64, 128 + n / 64 % 64, 128 + n % 64]

/-- `s.encode(utf-8)` for a Python `str`. -/
def utf8Encode (s : String) : List Nat :=
  s.data.flatMap utf8EncodeChar

/-- The payload normalization in both methods: a `str` is UTF-8 encoded,
`bytes` pass through unchanged. -/
def encodePayload : Payload → List Nat
  | .str s => utf8Encode s
  | .bytes b => b

/-- The outcome of one wrapper method call: the native calls performed, in
order, and the Python-level result. -/
structure RunResult where
  trace : List Call
  result : Except PyError Unit
deriving DecidableEq

/-- `xdo.enter_text_window`: validates the delay, encodes the payload, and —
when `clearmodifiers` is set — snapshots and clears the active modifiers
before the text entry, restoring them and freeing the snapshot after it.
Each errcheck-wrapped call that returns non-zero raises, aborting the rest
of the method body (the native call itself still happened and is traced). -/
def enter_text_window (oracle : Oracle) (string : Payload) (clearmodifiers : Bool)
    (delay : DelayArg) (window : Nat) : RunResult :=
  match delayToInt delay with
  | .error e => ⟨[], .error e⟩
  | .ok delay_int =>
    if clearmodifiers then
      match checkedCall oracle .xdo_get_active_modifiers with
      | .error e => ⟨[.get_active_modifiers], .error e⟩
      | .ok _ =>
        match checkedCall oracle .xdo_clear_active_modifiers with
        | .error e =>
            ⟨[.get_active_modifiers, .clear_active_modifiers window], .error e⟩
        | .ok _ =>
          match checkedCall oracle .xdo_enter_text_window with
          | .error e =>
              ⟨[.get_active_modifiers, .clear_active_modifiers window,
                .enter_text window (encodePayload string) delay_int], .error e⟩
          | .ok _ =>
            match checkedCall oracle .xdo_set_active_modifiers with
            | .error e =>
                ⟨[.get_active_modifiers, .clear_active_modifiers window,
                  .enter_text window (encodePayload string) delay_int,
                  .set_active_modifiers window], .error e⟩
            | .ok _ =>
                ⟨[.get_active_modifiers, .clear_active_modifiers window,
                  .enter_text window (encodePayload string) delay_int,
                  .set_active_modifiers window, .free], .ok ()⟩
    else
      match checkedCall oracle .xdo_enter_text_window with
      | .error e => ⟨[.enter_text window (encodePayload string) delay_int], .error e⟩
      | .ok _ => ⟨[.enter_text window (encodePayload string) delay_int], .ok ()⟩

/-- `xdo.send_keysequence_window`: same structure as `enter_text_window`
with `xdo_send_keysequence_window` as the primary native call. -/
def send_keysequence_window (oracle : Oracle) (keysequence : Payload)
    (clearmodifiers : Bool) (delay : DelayArg) (window : Nat) : RunResult :=
  match delayToInt delay with
  | .error e => ⟨[], .error e⟩
  | .ok delay_int =>
    if clearmodifiers then
      match checkedCall oracle .xdo_get_active_modifiers with
      | .error e => ⟨[.get_active_modifiers], .error e⟩
      | .ok _ =>
        match checkedCall oracle .xdo_clear_active_modifiers with
        | .error e =>
            ⟨[.get_active_modifiers, .clear_active_modifiers window], .error e⟩
        | .ok _ =>
          match checkedCall oracle .xdo_send_keysequence_window with
          | .error e =>
              ⟨[.get_active_modifiers, .clear_active_modifiers window,
                .send_keyseq window (encodePayload keysequence) delay_int], .error e⟩
          | .ok _ =>
            match checkedCall oracle .xdo_set_active_modifiers with
            | .error e =>
                ⟨[.get_active_modifiers, .clear_active_modifiers window,
                  .send_keyseq window (encodePayload keysequence) delay_int,
                  .set_active_modifiers window], .error e⟩
            | .ok _ =>
                ⟨[.get_active_modifiers, .clear_active_modifiers window,
                  .send_keyseq window (encodePayload keysequence) delay_int,
                  .set_active_modifiers window, .free], .ok ()⟩
    else
      match checkedCall oracle .xdo_send_keysequence_window with
      | .error e => ⟨[.send_keyseq window (encodePayload keysequence) delay_int], .error e⟩
      | .ok _ => ⟨[.send_keyseq window (encodePayload keysequence) delay_int], .ok ()⟩

/-- The outcome of the deprecated `type` method: the deprecation warnings
emitted, then the native calls and result of the delegated method. -/
structure TypeResult where
  warnings : List String
  trace : List Call
  result : Except PyError Unit
deriving DecidableEq

/-- `xdo.type`, wrapped by the `deprecated` decorator: warns, converts an
integer delay to `timedelta(microseconds=delay)`, and delegates to
`enter_text_window`. -/
def type (oracle : Oracle) (string : Payload) (clearmodifiers : Bool)
    (delay : DelayArg) (window : Nat) : TypeResult :=
  let delay' := match delay with
    | .int n => DelayArg.td (Timedelta.ofMicroseconds n)
    | d => d
  let r := enter_text_window oracle string clearmodifiers delay' window
  ⟨["Call to deprecated function type."], r.trace, r.result⟩

/-- `xdo.focus_window`: one errcheck-wrapped native call. -/
def focus_window (oracle : Oracle) (window : Nat) : RunResult :=
  match checkedCall oracle .xdo_focus_window with
  | .error e => ⟨[.focus window], .error e⟩
  | .ok _ => ⟨[.focus window], .ok ()⟩

/-- `xdo.wait_for_window_focus`: passes `1 if want_focus else 0` to the
errcheck-wrapped native call. -/
def wait_for_window_focus (oracle : Oracle) (window : Nat) (want_focus : Bool) :
    RunResult :=
  let want := if want_focus then 1 else 0
  match checkedCall oracle .xdo_wait_for_window_focus with
  | .error e => ⟨[.wait_focus window want], .error e⟩
  | .ok _ => ⟨[.wait_focus window want], .ok ()⟩

/-- The display-name bytes `xdo.__init__` hands to `xdo_new`: the given
display string when present, otherwise the `DISPLAY` environment value;
whichever is chosen is UTF-8 encoded, and absence of both yields null. -/
def displayArgBytes (display envDisplay : Option String) : Option (List Nat) :=
  (match display with
    | none => envDisplay
    | some s => some s).map utf8Encode

/-- `xdo.__init__`: calls `xdo_new` (modelled as a function from the optional
display bytes to an optional non-null handle) and raises `SystemError` when
it returns null, otherwise stores the handle. -/
def xdo_init (xdo_new : Option (List Nat) → Option Nat)
    (display envDisplay : Option String) : Except PyError Nat :=
  match xdo_new (displayArgBytes display envDisplay) with
  | none => .error (.systemError "Could not initialize libxdo")
  | some h => .ok h

/-! ### Helper lemmas -/

theorem totalMicroseconds_ofMicroseconds (us : Int) :
    (Timedelta.ofMicroseconds us).totalMicroseconds = us := by
  show ((us.fdiv 1000000).fdiv 86400 * 86400 + (us.fdiv 1000000).fmod 86400) * 1000000
      + us.fmod 1000000 = us
  have h1 := Int.fdiv_add_fmod (us.fdiv 1000000) 86400
  have h2 := Int.fdiv_add_fmod us 1000000
  linarith

theorem payloadBytes_in_enter_trace (o : Oracle) (p : Payload) (cm : Bool)
    (d : DelayArg) (w : Nat) :
    ∀ c ∈ (enter_text_window o p cm d w).trace, ∀ bs,
      c.payloadBytes = some bs → bs = encodePayload p := by
  unfold enter_text_window
  rcases delayToInt d with e | n
  · simp
  · rcases cm with _ | _
    · rcases checkedCall o .xdo_enter_text_window with e | u <;>
        simp [Call.payloadBytes]
    · rcases checkedCall o .xdo_get_active_modifiers with e | u
      · simp [Call.payloadBytes]
      · rcases checkedCall o .xdo_clear_active_modifiers with e | u
        · simp [Call.payloadBytes]
        · rcases checkedCall o .xdo_enter_text_window with e | u
          · simp [Call.payloadBytes]
          · rcases checkedCall o .xdo_set_active_modifiers with e | u <;>
              simp [Call.payloadBytes]

theorem payloadBytes_in_send_trace (o : Oracle) (p : Payload) (cm : Bool)
    (d : DelayArg) (w : Nat) :
    ∀ c ∈ (send_keysequence_window o p cm d w).trace, ∀ bs,
      c.payloadBytes = some bs → bs = encodePayload p := by
  unfold send_keysequence_window
  rcases delayToInt d with e | n
  · simp
  · rcases cm with _ | _
    · rcases checkedCall o .xdo_send_keysequence_window with e | u <;>
        simp [Call.payloadBytes]
    · rcases checkedCall o .xdo_get_active_modifiers with e | u
      · simp [Call.payloadBytes]
      · rcases checkedCall o .xdo_clear_active_modifiers with e | u
        · simp [Call.payloadBytes]
        · rcases checkedCall o .xdo_send_keysequence_window with e | u
          · simp [Call.payloadBytes]
          · rcases checkedCall o .xdo_set_active_modifiers with e | u <;>
              simp [Call.payloadBytes]

/-! ### Claim theorems -/

/-- C1: for each errcheck-wrapped native entry point, a non-zero native
result code raises an `XdoException` whose message carries the failing
function's name and that exact numeric code; a zero result raises nothing
and the checked result is `None`. -/
theorem C1_errcheck_convention (o : Oracle) (f : NativeFn) :
    (o f ≠ 0 → checkedCall o f = .error (.xdoException
      ("Function " ++ f.pyName ++ " returned error code " ++ toString (o f)))) ∧
    (o f = 0 → checkedCall o f = .ok ()) := by
  unfold checkedCall errcheck
  constructor
  · intro h
    simp [h]
  · intro h
    simp [h]

/-- Witness for C1: concrete non-zero and zero result codes. -/
theorem C1_errcheck_convention_witness :
    ((fun _ : NativeFn => (1 : Int)) NativeFn.xdo_focus_window ≠ 0) ∧
    checkedCall (fun _ => (1 : Int)) NativeFn.xdo_focus_window =
      .error (.xdoException "Function xdo_focus_window returned error code 1") ∧
    checkedCall (fun _ => (0 : Int)) NativeFn.xdo_enter_text_window = .ok () := by
  refine ⟨by decide, ?_,
    (C1_errcheck_convention (fun _ => 0) .xdo_enter_text_window).2 rfl⟩
  exact ((C1_errcheck_convention (fun _ => 1) .xdo_focus_window).1 (by decide)).trans
    (by decide)

/-- C2: with the clearmodifiers flag set, a run of `enter_text_window` or
`send_keysequence_window` that returns normally performs exactly
query-modifiers, clear-modifiers, the primary operation, set-modifiers,
then `free`, in that order. -/
theorem C2_clearmodifiers_call_sequence (o : Oracle) (p : Payload) (d : DelayArg)
    (w : Nat) :
    ((enter_text_window o p true d w).result = .ok () →
      (enter_text_window o p true d w).trace.map Call.name =
        [.get_mods, .clear_mods, .enter_text, .set_mods, .free]) ∧
    ((send_keysequence_window o p true d w).result = .ok () →
      (send_keysequence_window o p true d w).trace.map Call.name =
        [.get_mods, .clear_mods, .send_keyseq, .set_mods, .free]) := by
  constructor
  · intro h
    unfold enter_text_window at h ⊢
    rcases hd : delayToInt d with e | n <;> simp only [hd] at h ⊢
    · simp at h
    · rcases h1 : checkedCall o .xdo_get_active_modifiers with e1 | u1 <;>
        simp only [h1] at h ⊢
      · simp at h
      · rcases h2 : checkedCall o .xdo_clear_active_modifiers with e2 | u2 <;>
          simp only [h2] at h ⊢
        · simp at h
        · rcases h3 : checkedCall o .xdo_enter_text_window with e3 | u3 <;>
            simp only [h3] at h ⊢
          · simp at h
          · rcases h4 : checkedCall o .xdo_set_active_modifiers with e4 | u4 <;>
              simp only [h4] at h ⊢
            · simp at h
            · simp [Call.name]
  · intro h
    unfold send_keysequence_window at h ⊢
    rcases hd : delayToInt d with e | n <;> simp only [hd] at h ⊢
    · simp at h
    · rcases h1 : checkedCall o .xdo_get_active_modifiers with e1 | u1 <;>
        simp only [h1] at h ⊢
      · simp at h
      · rcases h2 : checkedCall o .xdo_clear_active_modifiers with e2 | u2 <;>
          simp only [h2] at h ⊢
        · simp at h
        · rcases h3 : checkedCall o .xdo_send_keysequence_window with e3 | u3 <;>
            simp only [h3] at h ⊢
          · simp at h
          · rcases h4 : checkedCall o .xdo_set_active_modifiers with e4 | u4 <;>
              simp only [h4] at h ⊢
            · simp at h
            · simp [Call.name]

/-- Witness for C2: a concrete successful run with clearmodifiers set. -/
theorem C2_clearmodifiers_call_sequence_witness :
    (enter_text_window (fun _ => 0) (.bytes [104, 105]) true (.int 7) 2).result =
      .ok () ∧
    (enter_text_window (fun _ => 0) (.bytes [104, 105]) true (.int 7) 2).trace.map
      Call.name = [.get_mods, .clear_mods, .enter_text, .set_mods, .free] :=
  ⟨by decide,
   (C2_clearmodifiers_call_sequence (fun _ => 0) (.bytes [104, 105]) (.int 7) 2).1
     (by decide)⟩

/-- C3: counter-evidence on the code — when the primary text-entry call fails
with clearmodifiers set, the wrapper raises before the restore-and-free
block, so the modifier snapshot is never freed: the trace stops at the
primary call and contains no `free`. -/
theorem C3_snapshot_not_freed_on_failure :
    (enter_text_window (fun f => if f = .xdo_enter_text_window then 1 else 0)
        (.str "Hi") true (.int 12000) 0).result =
      .error (.xdoException "Function xdo_enter_text_window returned error code 1") ∧
    (enter_text_window (fun f => if f = .xdo_enter_text_window then 1 else 0)
        (.str "Hi") true (.int 12000) 0).trace =
      [.get_active_modifiers, .clear_active_modifiers 0,
       .enter_text 0 [72, 105] 12000] ∧
    Call.free ∉ (enter_text_window (fun f => if f = .xdo_enter_text_window then 1 else 0)
        (.str "Hi") true (.int 12000) 0).trace :=
  ⟨by decide, by decide, by decide⟩

/-- C4: counter-evidence on the code — the conversion
`int(total_seconds() * 1000000)` runs through binary64 floats, so a
timedelta of exactly 249 microseconds has 248 passed downstream, and one of
exactly 1000001 microseconds has 1000000 passed, not the durations' total
microseconds; an integer delay does pass through unchanged, and the default
12000-microsecond timedelta happens to survive the float round-trip. -/
theorem C4_float_conversion_drops_microseconds :
    (Timedelta.ofMicroseconds 249).totalMicroseconds = 249 ∧
    delayToInt (.td (Timedelta.ofMicroseconds 249)) = .ok 248 ∧
    (Timedelta.ofMicroseconds 1000001).totalMicroseconds = 1000001 ∧
    delayToInt (.td (Timedelta.ofMicroseconds 1000001)) = .ok 1000000 ∧
    delayToInt (.td (Timedelta.ofMicroseconds 12000)) = .ok 12000 ∧
    delayToInt (.int 249) = .ok 249 :=
  ⟨by decide, by decide, by decide, by decide, by decide, rfl⟩

/-- C5: with clearmodifiers false, no modifier-handling native call and no
`free` occurs: the only native call made is the primary operation. -/
theorem C5_no_modifier_calls_without_flag (o : Oracle) (p : Payload) (d : DelayArg)
    (w : Nat) (hd : d ≠ DelayArg.other) :
    (enter_text_window o p false d w).trace.map Call.name = [.enter_text] ∧
    (send_keysequence_window o p false d w).trace.map Call.name = [.send_keyseq] := by
  obtain ⟨n, hn⟩ : ∃ n, delayToInt d = .ok n := by
    cases d with
    | td t => exact ⟨_, rfl⟩
    | int m => exact ⟨m, rfl⟩
    | other => exact absurd rfl hd
  constructor
  · unfold enter_text_window
    simp only [hn]
    rcases h1 : checkedCall o .xdo_enter_text_window with e | u <;>
      simp [h1, Call.name]
  · unfold send_keysequence_window
    simp only [hn]
    rcases h1 : checkedCall o .xdo_send_keysequence_window with e | u <;>
      simp [h1, Call.name]

/-- Witness for C5: a concrete run with clearmodifiers false. -/
theorem C5_no_modifier_calls_without_flag_witness :
    ((DelayArg.int 5) ≠ DelayArg.other) ∧
    (enter_text_window (fun _ => 0) (.bytes []) false (.int 5) 1).trace.map
      Call.name = [.enter_text] ∧
    (send_keysequence_window (fun _ => 0) (.bytes []) false (.int 5) 1).trace.map
      Call.name = [.send_keyseq] :=
  ⟨by decide,
   (C5_no_modifier_calls_without_flag (fun _ => 0) (.bytes []) (.int 5) 1
     (by decide)).1,
   (C5_no_modifier_calls_without_flag (fun _ => 0) (.bytes []) (.int 5) 1
     (by decide)).2⟩

/-- C6: when the native `xdo_new` returns null the constructor raises
`SystemError` — never `XdoException` — and when it returns a handle the
wrapper holds that non-null handle. -/
theorem C6_construction_failure_kind (newFn : Option (List Nat) → Option Nat)
    (display envDisplay : Option String) :
    (newFn (displayArgBytes display envDisplay) = none →
      xdo_init newFn display envDisplay =
        .error (.systemError "Could not initialize libxdo")) ∧
    (∀ h, newFn (displayArgBytes display envDisplay) = some h →
      xdo_init newFn display envDisplay = .ok h) ∧
    (∀ msg, xdo_init newFn display envDisplay ≠ .error (.xdoException msg)) := by
  unfold xdo_init
  rcases hn : newFn (displayArgBytes display envDisplay) with _ | h <;> simp [hn]

/-- Witness for C6: a concrete failing and a concrete succeeding `xdo_new`. -/
theorem C6_construction_failure_kind_witness :
    ((fun _ : Option (List Nat) => (none : Option Nat))
        (displayArgBytes (some ":0") none) = none) ∧
    xdo_init (fun _ => none) (some ":0") none =
      .error (.systemError "Could not initialize libxdo") ∧
    xdo_init (fun _ => some 7) none none = .ok 7 :=
  ⟨rfl,
   (C6_construction_failure_kind (fun _ => none) (some ":0") none).1 rfl,
   (C6_construction_failure_kind (fun _ => some 7) none none).2.1 7 rfl⟩

/-- C7: a delay that is neither a timedelta nor an int raises `TypeError`
and no native call at all is performed. -/
theorem C7_bad_delay_type_no_calls (o : Oracle) (p : Payload) (cm : Bool) (w : Nat) :
    enter_text_window o p cm DelayArg.other w =
      ⟨[], .error (.typeError
        "delay parameter should be either a timedelta or an int")⟩ ∧
    send_keysequence_window o p cm DelayArg.other w =
      ⟨[], .error (.typeError
        "delay parameter should be either a timedelta or an int")⟩ :=
  ⟨rfl, rfl⟩

/-- C8: for an integer-microsecond delay, the deprecated `type` method
performs the same native-call trace and produces the same result as
`enter_text_window` called with the delay converted to the equivalent
duration — `timedelta(microseconds=d)`, which spans exactly `d`
microseconds — and additionally emits one deprecation warning. -/
theorem C8_type_matches_enter_text_window (o : Oracle) (p : Payload) (cm : Bool)
    (d : Int) (w : Nat) :
    (type o p cm (.int d) w).trace =
      (enter_text_window o p cm (.td (Timedelta.ofMicroseconds d)) w).trace ∧
    (type o p cm (.int d) w).result =
      (enter_text_window o p cm (.td (Timedelta.ofMicroseconds d)) w).result ∧
    (type o p cm (.int d) w).warnings = ["Call to deprecated function type."] ∧
    (Timedelta.ofMicroseconds d).totalMicroseconds = d :=
  ⟨rfl, rfl, rfl, totalMicroseconds_ofMicroseconds d⟩

/-- C9: the payload bytes handed to the primary native call are the UTF-8
encoding of a `str` payload, and the unchanged bytes of a `bytes` payload,
for both methods. -/
theorem C9_payload_encoding (o : Oracle) (cm : Bool) (d : DelayArg) (w : Nat)
    (s : String) (b : List Nat) :
    (∀ c ∈ (enter_text_window o (.str s) cm d w).trace, ∀ bs,
      c.payloadBytes = some bs → bs = utf8Encode s) ∧
    (∀ c ∈ (enter_text_window o (.bytes b) cm d w).trace, ∀ bs,
      c.payloadBytes = some bs → bs = b) ∧
    (∀ c ∈ (send_keysequence_window o (.str s) cm d w).trace, ∀ bs,
      c.payloadBytes = some bs → bs = utf8Encode s) ∧
    (∀ c ∈ (send_keysequence_window o (.bytes b) cm d w).trace, ∀ bs,
      c.payloadBytes = some bs → bs = b) :=
  ⟨payloadBytes_in_enter_trace o (.str s) cm d w,
   payloadBytes_in_enter_trace o (.bytes b) cm d w,
   payloadBytes_in_send_trace o (.str s) cm d w,
   payloadBytes_in_send_trace o (.bytes b) cm d w⟩

/-- Witness for C9: a concrete run whose primary call carries the UTF-8
bytes of the string payload. -/
theorem C9_payload_encoding_witness :
    (Call.enter_text 3 [65] 5 ∈
      (enter_text_window (fun _ => 0) (.str "A") false (.int 5) 3).trace) ∧
    (Call.enter_text 3 [65] 5).payloadBytes = some [65] ∧
    [65] = utf8Encode "A" := by
  refine ⟨by decide, rfl, ?_⟩
  exact (C9_payload_encoding (fun _ => 0) false (.int 5) 3 "A" []).1
    (Call.enter_text 3 [65] 5) (by decide) [65] rfl

/-- C10: the display bytes handed to `xdo_new` are the UTF-8 encoding of the
given display string; with no display argument they are the UTF-8 encoding
of the `DISPLAY` environment value, or null when that is absent too. -/
theorem C10_display_fallback (envDisplay : Option String) (s e : String) :
    displayArgBytes (some s) envDisplay = some (utf8Encode s) ∧
    displayArgBytes none (some e) = some (utf8Encode e) ∧
    displayArgBytes none none = none :=
  ⟨rfl, rfl, rfl⟩

end PythonLibxdo
